import Mathlib

/-!
Verification of the kitopizzas binary asset decoders (MDL model loader and
WMB world loader) against their natural-language specification.

The Python sources are shallowly embedded:
 - byte buffers are lists of naturals (each byte value below 256);
 - struct.unpack_from is a fallible bounds-checked read (it raises
   struct.error when the requested span exceeds the buffer), modelled with
   Except;
 - Python slicing data[a:b] clamps silently and never fails;
 - Python list indexing raises IndexError when out of range;
 - IEEE-754 binary32 values are decoded exactly into rationals (the
   non-finite encodings with exponent 255, never exercised by any claim,
   are mapped to 0).
-/

/-- A Python byte buffer: a list of byte values. -/
abbrev Bytes := List Nat

/-- The exceptions the Python loaders can raise on malformed input:
struct.error from a short unpack_from, IndexError from indexing a short
slice. -/
inductive PyErr where
  | structError
  | indexError
deriving DecidableEq

/-- Python slice data[off : off+n]: clamps to the available bytes and never
fails. -/
def sliceAt (data : Bytes) (off n : Nat) : Bytes :=
  (data.drop off).take n

/-- The bounds check of struct.unpack_from at a non-negative offset: the
requested span must lie inside the buffer, otherwise struct.error. -/
def readBytes (data : Bytes) (off n : Nat) : Option Bytes :=
  if off + n ≤ data.length then some (sliceAt data off n) else none

/-- Little-endian interpretation of a byte list (first byte least
significant). -/
def leNat (bs : Bytes) : Nat :=
  bs.foldr (fun b acc => b + 256 * acc) 0

/-- Unsigned 32-bit little-endian field inside an already-read record. -/
def u32at (bs : Bytes) (k : Nat) : Nat :=
  leNat (sliceAt bs k 4)

/-- Unsigned 16-bit little-endian field inside an already-read record. -/
def u16at (bs : Bytes) (k : Nat) : Nat :=
  leNat (sliceAt bs k 2)

/-- Two's-complement reinterpretation of a 32-bit unsigned value. -/
def toI32 (n : Nat) : Int :=
  if n < 2 ^ 31 then (n : Int) else (n : Int) - 2 ^ 32

/-- Signed 32-bit little-endian field inside an already-read record. -/
def i32at (bs : Bytes) (k : Nat) : Int :=
  toI32 (u32at bs k)

/-- Two's-complement reinterpretation of a 16-bit unsigned value. -/
def toI16 (n : Nat) : Int :=
  if n < 2 ^ 15 then (n : Int) else (n : Int) - 2 ^ 16

/-- Signed 16-bit little-endian field inside an already-read record. -/
def i16at (bs : Bytes) (k : Nat) : Int :=
  toI16 (u16at bs k)

/-- Exact value of an IEEE-754 binary32 bit pattern, as a rational.
Exponent 255 encodes infinities and NaNs, which no claim exercises; the
model maps them to 0. -/
def decodeF32bits (w : Nat) : ℚ :=
  let s : Nat := w / 2 ^ 31
  let e : Nat := (w / 2 ^ 23) % 2 ^ 8
  let m : Nat := w % 2 ^ 23
  let sign : ℚ := if s = 1 then -1 else 1
  if e = 0 then sign * (m : ℚ) / 2 ^ 149
  else if e = 255 then 0
  else sign * ((2 ^ 23 + m : ℕ) : ℚ) * (2 : ℚ) ^ ((e : ℤ) - 150)

/-- binary32 field inside an already-read record. -/
def f32at (bs : Bytes) (k : Nat) : ℚ :=
  decodeF32bits (u32at bs k)

/-- struct.unpack_from of one u32: fails with struct.error when fewer than
4 bytes remain. -/
def readU32 (data : Bytes) (off : Nat) : Option Nat :=
  (readBytes data off 4).map leNat

/-- Except-flavoured u32 read, as raised inside the loaders. -/
def expectU32 (data : Bytes) (off : Nat) : Except PyErr Nat :=
  match readU32 data off with
  | some v => .ok v
  | none => .error .structError

/-- struct.unpack_from of one i32. -/
def expectI32 (data : Bytes) (off : Nat) : Except PyErr Int :=
  match readU32 data off with
  | some v => .ok (toI32 v)
  | none => .error .structError

/-- A run of n u32 values read one unpack_from at a time. -/
def readU32List (data : Bytes) (off : Nat) : Nat → Except PyErr (List Nat)
  | 0 => .ok []
  | n + 1 => do
    let v ← expectU32 data off
    let rest ← readU32List data (off + 4) n
    .ok (v :: rest)

/-- Extract n consecutive binary32 values from an already-read record. -/
def f32ListAt (bs : Bytes) : Nat → Nat → List ℚ
  | _, 0 => []
  | k, n + 1 => f32at bs k :: f32ListAt bs (k + 4) n

/-- struct.unpack_from with a counted float format: a single bounds check
for all n values, then exact extraction. -/
def readF32List (data : Bytes) (off n : Nat) : Except PyErr (List ℚ) :=
  match readBytes data off (4 * n) with
  | some b => .ok (f32ListAt b 0 n)
  | none => .error .structError

/-- bytes.strip of NUL bytes, as applied to the fixed-width names (the
subsequent utf-8 decode is not modelled; names stay raw bytes). -/
def stripNulls (bs : Bytes) : Bytes :=
  ((bs.dropWhile (· = 0)).reverse.dropWhile (· = 0)).reverse

/-- A coordinate triple; Python floats are modelled as exact rationals. -/
abbrev Vec3q := ℚ × ℚ × ℚ

/-! ## MDL model loader, IDPO (Quake) variant — src/viewer/mdl_loader.py -/

/-- The parsed IDPO header (format string 4sI 3f 3f f 3f I I I I I I I I f,
84 bytes). -/
structure IdpoHeader where
  ident : Bytes
  version : Nat
  scale : Vec3q
  translate : Vec3q
  boundingradius : ℚ
  eyeposition : Vec3q
  num_skins : Nat
  skinwidth : Nat
  skinheight : Nat
  num_verts : Nat
  num_tris : Nat
  num_frames : Nat
  synctype : Nat
  flags : Nat
  size : ℚ
deriving DecidableEq

/-- One IDPO skin, mirroring the type strings of the Python dicts. -/
inductive Skin where
  | single_8bit (d : Bytes)
  | single_16bit (d : Bytes)
  | single_16bit_4444 (d : Bytes)
  | single_24bit_888 (d : Bytes)
  | single_32bit_8888 (d : Bytes)
  | group (times : List ℚ) (d : List Bytes)
deriving DecidableEq

/-- One decoded IDPO animation frame. -/
structure FrameIdpo where
  name : Bytes
  bboxmin : Bytes
  bboxmax : Bytes
  verts : List Vec3q
deriving DecidableEq

/-- The decoded IDPO model. -/
structure MdlIdpo where
  header : IdpoHeader
  skins : List Skin
  texcoords : List (Nat × Nat × Nat)
  triangles : List (Nat × Nat × Nat × Nat)
  frames : List FrameIdpo
deriving DecidableEq

/-- One unpack_from of the whole 84-byte IDPO header, then field
extraction. -/
def parse_idpo_header (data : Bytes) : Except PyErr (IdpoHeader × Nat) :=
  match readBytes data 0 84 with
  | none => .error .structError
  | some h =>
    .ok ({ ident := sliceAt h 0 4
           version := u32at h 4
           scale := (f32at h 8, f32at h 12, f32at h 16)
           translate := (f32at h 20, f32at h 24, f32at h 28)
           boundingradius := f32at h 32
           eyeposition := (f32at h 36, f32at h 40, f32at h 44)
           num_skins := u32at h 48
           skinwidth := u32at h 52
           skinheight := u32at h 56
           num_verts := u32at h 60
           num_tris := u32at h 64
           num_frames := u32at h 68
           synctype := u32at h 72
           flags := u32at h 76
           size := f32at h 80 }, 84)

/-- The nb consecutive width*height pixel slices of a grouped skin; Python
slicing, so each may silently come out short. -/
def groupSlices (data : Bytes) (off sz : Nat) : Nat → List Bytes
  | 0 => []
  | n + 1 => sliceAt data off sz :: groupSlices data (off + sz) sz n

/-- The IDPO skin loop of MDL._load_idpo: per skin a 4-byte type code, then
type 0/2/3/4/5 single images (pixel bytes via a clamping slice), type 1 a
timed group, and any other code is logged and skipped with no skin appended
and no bytes consumed beyond the code. -/
def load_skins_idpo (data : Bytes) (hdr : IdpoHeader) :
    Nat → Nat → Except PyErr (List Skin × Nat)
  | 0, off => .ok ([], off)
  | n + 1, off => do
    let st ← expectU32 data off
    let off := off + 4
    let w := hdr.skinwidth
    let h := hdr.skinheight
    if st = 0 then
      let sz := w * h
      let (rest, off') ← load_skins_idpo data hdr n (off + sz)
      .ok (.single_8bit (sliceAt data off sz) :: rest, off')
    else if st = 2 then
      let sz := w * h * 2
      let (rest, off') ← load_skins_idpo data hdr n (off + sz)
      .ok (.single_16bit (sliceAt data off sz) :: rest, off')
    else if st = 3 then
      let sz := w * h * 2
      let (rest, off') ← load_skins_idpo data hdr n (off + sz)
      .ok (.single_16bit_4444 (sliceAt data off sz) :: rest, off')
    else if st = 4 then
      let sz := w * h * 3
      let (rest, off') ← load_skins_idpo data hdr n (off + sz)
      .ok (.single_24bit_888 (sliceAt data off sz) :: rest, off')
    else if st = 5 then
      let sz := w * h * 4
      let (rest, off') ← load_skins_idpo data hdr n (off + sz)
      .ok (.single_32bit_8888 (sliceAt data off sz) :: rest, off')
    else if st = 1 then
      let nb ← expectU32 data off
      let off := off + 4
      let times ← readF32List data off nb
      let off := off + nb * 4
      let sz := w * h
      let gs := groupSlices data off sz nb
      let (rest, off') ← load_skins_idpo data hdr n (off + nb * sz)
      .ok (.group times gs :: rest, off')
    else
      load_skins_idpo data hdr n off

/-- The texcoord loop: num_verts records of format III (12 bytes each). -/
def load_texcoords (data : Bytes) :
    Nat → Nat → Except PyErr (List (Nat × Nat × Nat) × Nat)
  | 0, off => .ok ([], off)
  | n + 1, off =>
    match readBytes data off 12 with
    | none => .error .structError
    | some b => do
      let (rest, off') ← load_texcoords data n (off + 12)
      .ok ((u32at b 0, u32at b 4, u32at b 8) :: rest, off')

/-- The IDPO triangle loop: num_tris records of format I3I (16 bytes:
facesfront then three vertex indices). -/
def load_triangles_idpo (data : Bytes) :
    Nat → Nat → Except PyErr (List (Nat × Nat × Nat × Nat) × Nat)
  | 0, off => .ok ([], off)
  | n + 1, off =>
    match readBytes data off 16 with
    | none => .error .structError
    | some b => do
      let (rest, off') ← load_triangles_idpo data n (off + 16)
      .ok ((u32at b 0, u32at b 4, u32at b 8, u32at b 12) :: rest, off')

/-- The per-vertex de-quantization of a byte-packed frame (the loop over
v_packed = verts_data[i*4 : i*4+4]): Python indexes bytes 0..2 of the
4-byte slice (IndexError when absent) and maps byte b on axis a to
b * scale[a] + translate[a]. Shared verbatim between MDL._load_frames_idpo
and the byte-packed branch of MDL._load_frames_mdl345. -/
def decodeFrameVertsAux (scale translate : Vec3q) (vd : Bytes) :
    Nat → Nat → Except PyErr (List Vec3q)
  | _, 0 => .ok []
  | i, k + 1 => do
    let vp := sliceAt vd (i * 4) 4
    let b0 ← match vp.get? 0 with | some b => .ok b | none => .error PyErr.indexError
    let b1 ← match vp.get? 1 with | some b => .ok b | none => .error PyErr.indexError
    let b2 ← match vp.get? 2 with | some b => .ok b | none => .error PyErr.indexError
    let rest ← decodeFrameVertsAux scale translate vd (i + 1) k
    .ok (((b0 : ℚ) * scale.1 + translate.1,
          (b1 : ℚ) * scale.2.1 + translate.2.1,
          (b2 : ℚ) * scale.2.2 + translate.2.2) :: rest)

/-- De-quantize num_verts byte-packed vertices from the (possibly short)
slice vd. -/
def decodeFrameVerts (scale translate : Vec3q) (vd : Bytes) (n : Nat) :
    Except PyErr (List Vec3q) :=
  decodeFrameVertsAux scale translate vd 0 n

/-- MDL._load_frames_idpo: per frame a 4-byte frame type; type 0 parses a
24-byte frame header (4B 4B 16s) and then num_verts byte-packed vertices
taken from a clamping slice; any other type prints that group frames are
not implemented and returns immediately, keeping the frames decoded so
far. -/
def load_frames_idpo (data : Bytes) (hdr : IdpoHeader) :
    Nat → Nat → Except PyErr (List FrameIdpo × Nat)
  | 0, off => .ok ([], off)
  | n + 1, off => do
    let ft ← expectU32 data off
    let off := off + 4
    if ft = 0 then
      match readBytes data off 24 with
      | none => .error .structError
      | some fh => do
        let off := off + 24
        let nv := hdr.num_verts
        let vd := sliceAt data off (nv * 4)
        let off := off + nv * 4
        let verts ← decodeFrameVerts hdr.scale hdr.translate vd nv
        let (rest, off') ← load_frames_idpo data hdr n off
        .ok ({ name := stripNulls (sliceAt fh 8 16)
               bboxmin := sliceAt fh 0 4
               bboxmax := sliceAt fh 4 4
               verts := verts } :: rest, off')
    else
      .ok ([], off)

/-- MDL._load_idpo: header, skins, texcoords, triangles, frames, in that
order, front to back. -/
def load_idpo (data : Bytes) : Except PyErr MdlIdpo := do
  let (hdr, off) ← parse_idpo_header data
  let (skins, off) ← load_skins_idpo data hdr hdr.num_skins off
  let (texcoords, off) ← load_texcoords data hdr.num_verts off
  let (triangles, off) ← load_triangles_idpo data hdr.num_tris off
  let (frames, _) ← load_frames_idpo data hdr hdr.num_frames off
  .ok { header := hdr, skins := skins, texcoords := texcoords,
        triangles := triangles, frames := frames }

/-! ## Concrete IDPO input buffers for the claims -/

/-- Little-endian encoding of a u32 value. -/
def u32le (n : Nat) : Bytes :=
  [n % 256, n / 256 % 256, n / 2 ^ 16 % 256, n / 2 ^ 24 % 256]

/-- Little-endian encoding of a u16 value. -/
def u16le (n : Nat) : Bytes :=
  [n % 256, n / 256 % 256]

/-- Little-endian two's-complement encoding of an i32 value. -/
def i32le (n : Int) : Bytes :=
  u32le (n % 2 ^ 32).toNat

/-- An 84-byte IDPO header: ident IDPO, version 6, all three scale
components sharing the bit pattern scaleBits, zero translate, zero
bounding data, and the given counts. -/
def idpoHeaderBytes (scaleBits ns w h nv nt nf : Nat) : Bytes :=
  [73, 68, 80, 79] ++ u32le 6 ++
  u32le scaleBits ++ u32le scaleBits ++ u32le scaleBits ++
  u32le 0 ++ u32le 0 ++ u32le 0 ++
  u32le 0 ++
  u32le 0 ++ u32le 0 ++ u32le 0 ++
  u32le ns ++ u32le w ++ u32le h ++ u32le nv ++ u32le nt ++ u32le nf ++
  u32le 0 ++ u32le 0 ++ u32le 0

/-- A complete valid IDPO file: one 2x2 8-bit skin (4 pixel bytes), no
texcoords, triangles or frames; declared end at byte 92. -/
def c1file : Bytes :=
  idpoHeaderBytes 0 1 2 2 0 0 0 ++ u32le 0 ++ [1, 2, 3, 4]

/-- c1file truncated inside the skin pixel block: only 2 of the 4 declared
pixel bytes are present. -/
def c1buf : Bytes :=
  c1file.take 90

/-- An IDPO file declaring two frames: one valid simple frame (type 0,
no vertices) followed by a frame whose 4-byte type is 1 (a group frame). -/
def c2buf : Bytes :=
  idpoHeaderBytes 0 0 0 0 0 0 2 ++
  u32le 0 ++ List.replicate 24 0 ++
  u32le 1

/-- An IDPO file declaring one skin whose 4-byte type code is 99, an
unrecognized value. -/
def c3buf : Bytes :=
  idpoHeaderBytes 0 1 2 2 0 0 0 ++ u32le 99

/-- The pixel byte count of a decoded skin (group skins sum their
images). -/
def skinDataLength : Skin → Nat
  | .single_8bit d => d.length
  | .single_16bit d => d.length
  | .single_16bit_4444 d => d.length
  | .single_24bit_888 d => d.length
  | .single_32bit_8888 d => d.length
  | .group _ ds => (ds.map List.length).sum

/-! ## MDL model loader, MDL3/4/5 frames — src/viewer/mdl_loader.py -/

/-- A Gamestudio frame: the MDL3/4/5 and MDL7 frame dicts store only a name
and the vertex positions. -/
structure FrameG where
  name : Bytes
  verts : List Vec3q
deriving DecidableEq

/-- Word-packed de-quantization for MDL3/4/5 frame type 2: per vertex one
unpack_from of 3HBB at i*8 inside the (possibly short) slice, mapping word
w on axis a to w * scale[a] + translate[a]. -/
def decodeFrameVertsWordAux (scale translate : Vec3q) (vd : Bytes) :
    Nat → Nat → Except PyErr (List Vec3q)
  | _, 0 => .ok []
  | i, k + 1 =>
    match readBytes vd (i * 8) 8 with
    | none => .error .structError
    | some b => do
      let rest ← decodeFrameVertsWordAux scale translate vd (i + 1) k
      .ok (((u16at b 0 : ℚ) * scale.1 + translate.1,
            (u16at b 2 : ℚ) * scale.2.1 + translate.2.1,
            (u16at b 4 : ℚ) * scale.2.2 + translate.2.2) :: rest)

/-- De-quantize n word-packed vertices from the slice vd. -/
def decodeFrameVertsWord (scale translate : Vec3q) (vd : Bytes) (n : Nat) :
    Except PyErr (List Vec3q) :=
  decodeFrameVertsWordAux scale translate vd 0 n

/-- MDL._load_frames_mdl345: per frame a 4-byte type, a bounding box whose
width tracks the type (4B4B for byte-packed type 0, 8B8B otherwise), a
16-byte name, then num_verts packed vertices from a clamping slice;
byte-packed frames reuse the same de-quantization loop as IDPO. -/
def load_frames_mdl345 (data : Bytes) (scale translate : Vec3q)
    (num_verts : Nat) : Nat → Nat → Except PyErr (List FrameG × Nat)
  | 0, off => .ok ([], off)
  | n + 1, off => do
    let ft ← expectU32 data off
    let off := off + 4
    let bboxSize := if ft = 0 then 8 else 16
    match readBytes data off bboxSize with
    | none => .error .structError
    | some _ =>
      let off := off + bboxSize
      match readBytes data off 16 with
      | none => .error .structError
      | some nm => do
        let off := off + 16
        if ft = 0 then
          let vd := sliceAt data off (num_verts * 4)
          let off := off + num_verts * 4
          let verts ← decodeFrameVerts scale translate vd num_verts
          let (rest, off') ← load_frames_mdl345 data scale translate num_verts n off
          .ok ({ name := stripNulls nm, verts := verts } :: rest, off')
        else
          let vd := sliceAt data off (num_verts * 8)
          let off := off + num_verts * 8
          let verts ← decodeFrameVertsWord scale translate vd num_verts
          let (rest, off') ← load_frames_mdl345 data scale translate num_verts n off
          .ok ({ name := stripNulls nm, verts := verts } :: rest, off')

/-! ## MDL model loader, MDL7 (multi-group) variant — src/viewer/mdl_loader.py

MDL7 counts are signed 32-bit values and offsets mix in products with
them, so the cursor position is an integer here. struct.unpack_from counts
a negative offset from the end of the buffer; slices clamp like Python
slices. -/

/-- struct.unpack_from at a possibly negative offset: negative offsets
count from the end of the buffer; the requested span must then lie inside
it. -/
def readBytesI (data : Bytes) (off : Int) (n : Nat) : Option Bytes :=
  let eff : Int := if off < 0 then (data.length : Int) + off else off
  if 0 ≤ eff ∧ eff + n ≤ (data.length : Int) then
    some (sliceAt data eff.toNat n)
  else none

/-- Clamp one Python slice bound to the buffer. -/
def pyBound (len : Nat) (i : Int) : Nat :=
  if i < 0 then (max 0 ((len : Int) + i)).toNat else min i.toNat len

/-- Python slice data[a : b] with integer bounds. -/
def pySliceI (data : Bytes) (a b : Int) : Bytes :=
  let a' := pyBound data.length a
  let b' := pyBound data.length b
  (data.drop a').take (b' - a')

/-- The MD7_HEADER fields (format 4s i i i i i i 10H, 48 bytes). -/
structure Mdl7Header where
  ident : Bytes
  version : Int
  bones_num : Int
  groups_num : Int
  mdl7data_size : Int
  entlump_size : Int
  medlump_size : Int
  bone_stc_size : Nat
  skin_stc_size : Nat
  colorvalue_stc_size : Nat
  material_stc_size : Nat
  skinpoint_stc_size : Nat
  triangle_stc_size : Nat
  mainvertex_stc_size : Nat
  framevertex_stc_size : Nat
  bonetrans_stc_size : Nat
  frame_stc_size : Nat
deriving DecidableEq

/-- One unpack_from of the whole 48-byte MDL7 header. -/
def parse_mdl7_header (data : Bytes) : Except PyErr (Mdl7Header × Int) :=
  match readBytes data 0 48 with
  | none => .error .structError
  | some h =>
    .ok ({ ident := sliceAt h 0 4
           version := i32at h 4
           bones_num := i32at h 8
           groups_num := i32at h 12
           mdl7data_size := i32at h 16
           entlump_size := i32at h 20
           medlump_size := i32at h 24
           bone_stc_size := u16at h 28
           skin_stc_size := u16at h 30
           colorvalue_stc_size := u16at h 32
           material_stc_size := u16at h 34
           skinpoint_stc_size := u16at h 36
           triangle_stc_size := u16at h 38
           mainvertex_stc_size := u16at h 40
           framevertex_stc_size := u16at h 42
           bonetrans_stc_size := u16at h 44
           frame_stc_size := u16at h 46 }, 48)

/-- One stored MDL7 skin: the base pixel kind and the copied pixel bytes. -/
structure SkinG where
  kind : Nat
  width : Int
  height : Int
  pixels : Bytes
deriving DecidableEq

/-- One merged MDL7 triangle: three rebased vertex indices then three
rebased skin-point indices. -/
structure Tri7 where
  v0 : Int
  v1 : Int
  v2 : Int
  uv0 : Int
  uv1 : Int
  uv2 : Int
deriving DecidableEq

/-- The MDL7 per-group skin loop: a 28-byte record (B 3B i i 16s) per skin
with the cursor advanced by the header-declared skin structure size;
material (bit 4 or base type 1), DDS (6) and external-file (7) skins carry
no pixels and are skipped; recognized pixel types copy width*height*bpp
bytes via a clamping slice and skip three mipmap levels when bit 3 is set;
only the first pixel-carrying skin of the whole model is stored, also
setting the model-level skin width and height. Bit tests are written
arithmetically: typ AND 7 is typ mod 8, typ AND 8 tests typ / 8 mod 2 and
typ AND 16 tests typ / 16 mod 2. -/
def load_group_skins (data : Bytes) (hdr : Mdl7Header) :
    Nat → Int → List SkinG → Int → Int →
    Except PyErr (Int × List SkinG × Int × Int)
  | 0, off, skins, sw, sh => .ok (off, skins, sw, sh)
  | n + 1, off, skins, sw, sh =>
    match readBytesI data off 28 with
    | none => .error .structError
    | some b =>
      let off := off + hdr.skin_stc_size
      let typ := b.getD 0 0
      let width := i32at b 4
      let height := i32at b 8
      let base := typ % 8
      if typ / 16 % 2 = 1 ∨ base = 1 then
        load_group_skins data hdr n off skins sw sh
      else if base = 6 then
        load_group_skins data hdr n off skins sw sh
      else if base = 7 then
        load_group_skins data hdr n off skins sw sh
      else
        let bpp : Int :=
          if base = 0 then 1 else if base = 2 then 2 else if base = 3 then 2
          else if base = 4 then 3 else if base = 5 then 4 else 0
        if 0 < bpp ∧ 0 < width ∧ 0 < height then
          let psize := width * height * bpp
          let pdata := pySliceI data off (off + psize)
          let off := off + psize
          let off :=
            if typ / 8 % 2 = 1 then
              off + width / 2 * (height / 2) * bpp +
                width / 4 * (height / 4) * bpp +
                width / 8 * (height / 8) * bpp
            else off
          if skins.isEmpty then
            load_group_skins data hdr n off
              [{ kind := base, width := width, height := height,
                 pixels := pdata }] width height
          else
            load_group_skins data hdr n off skins sw sh
        else
          load_group_skins data hdr n off skins sw sh

/-- The MDL7 skin-point loop: an ff pair per point, cursor advanced by the
header-declared skin-point structure size. -/
def load_group_skinpoints (data : Bytes) (stc : Nat) :
    Nat → Int → Except PyErr (List (ℚ × ℚ) × Int)
  | 0, off => .ok ([], off)
  | n + 1, off =>
    match readBytesI data off 8 with
    | none => .error .structError
    | some b => do
      let (rest, off') ← load_group_skinpoints data stc n (off + stc)
      .ok ((f32at b 0, f32at b 4) :: rest, off')

/-- The MDL7 triangle loop: three u16 vertex indices at the record start
and three u16 skin-point indices 6 bytes in, each rebased by the running
vertex and skin-point totals of the prior groups; cursor advanced by the
header-declared triangle structure size. -/
def load_group_tris (data : Bytes) (stc : Nat) (vOff uvOff : Int) :
    Nat → Int → Except PyErr (List Tri7 × Int)
  | 0, off => .ok ([], off)
  | n + 1, off =>
    match readBytesI data off 6, readBytesI data (off + 6) 6 with
    | some b1, some b2 => do
      let (rest, off') ← load_group_tris data stc vOff uvOff n (off + stc)
      .ok ({ v0 := (u16at b1 0 : Int) + vOff
             v1 := (u16at b1 2 : Int) + vOff
             v2 := (u16at b1 4 : Int) + vOff
             uv0 := (u16at b2 0 : Int) + uvOff
             uv1 := (u16at b2 2 : Int) + uvOff
             uv2 := (u16at b2 4 : Int) + uvOff } :: rest, off')
    | _, _ => .error .structError

/-- The MDL7 main-vertex loop: an fff position per vertex, cursor advanced
by the header-declared main-vertex structure size (the bone index is read
past, not stored). -/
def load_group_verts (data : Bytes) (stc : Nat) :
    Nat → Int → Except PyErr (List Vec3q × Int)
  | 0, off => .ok ([], off)
  | n + 1, off =>
    match readBytesI data off 12 with
    | none => .error .structError
    | some b => do
      let (rest, off') ← load_group_verts data stc n (off + stc)
      .ok ((f32at b 0, f32at b 4, f32at b 8) :: rest, off')

/-- One frame-vertex override: frame_verts[vertindex] = position when
vertindex is in range, and no change at all otherwise. -/
def applyOverride (vs : List Vec3q) (idx : Nat) (v : Vec3q) : List Vec3q :=
  if idx < vs.length then vs.set idx v else vs

/-- The MDL7 frame-vertex loop: per record an fff position and a u16
vertindex 12 bytes in, applied as an override onto the accumulated vertex
list; cursor advanced by the header-declared frame-vertex structure
size. -/
def read_frame_overrides (data : Bytes) (stc : Nat) :
    Nat → Int → List Vec3q → Except PyErr (List Vec3q × Int)
  | 0, off, vs => .ok (vs, off)
  | k + 1, off, vs =>
    match readBytesI data off 12, readBytesI data (off + 12) 2 with
    | some b1, some b2 =>
      read_frame_overrides data stc k (off + stc)
        (applyOverride vs (u16at b2 0) (f32at b1 0, f32at b1 4, f32at b1 8))
    | _, _ => .error .structError

/-- The MDL7 per-group frame loop: a 16-byte name and the i32 counts of
frame vertices and bone transforms, the frame vertices applied as
overrides on a copy of the group's main vertices, the bone transforms
skipped; group 0 appends new model frames while every later group extends
the matching-index frame's vertex list (frames beyond the existing list
are dropped on the floor). -/
def load_group_frames (data : Bytes) (hdr : Mdl7Header) (group_idx : Nat)
    (group_verts : List Vec3q) :
    Nat → Nat → Int → List FrameG → Except PyErr (List FrameG × Int)
  | _, 0, off, frames => .ok (frames, off)
  | fi, n + 1, off, frames =>
    match readBytesI data off 16, readBytesI data (off + 16) 8 with
    | some nm, some cnts => do
      let verts_count := i32at cnts 0
      let trans_count := i32at cnts 4
      let off := off + hdr.frame_stc_size
      let (frame_verts, off) ←
        read_frame_overrides data hdr.framevertex_stc_size
          verts_count.toNat off group_verts
      let off := off + trans_count * hdr.bonetrans_stc_size
      let frames :=
        if group_idx = 0 then
          frames ++ [{ name := stripNulls nm, verts := frame_verts }]
        else if fi < frames.length then
          let old := frames.getD fi { name := [], verts := [] }
          frames.set fi { old with verts := old.verts ++ frame_verts }
        else frames
      load_group_frames data hdr group_idx group_verts (fi + 1) n off frames
    | _, _ => .error .structError

/-- The running state of the MDL7 group loop: cursor, merged collections
and the index-rebasing accumulators. -/
structure M7State where
  off : Int
  skins : List SkinG
  skinwidth : Int
  skinheight : Int
  all_skinverts : List (ℚ × ℚ)
  all_triangles : List Tri7
  frames : List FrameG
  vertex_offset : Int
  skinvert_offset : Int
deriving DecidableEq

/-- One iteration of the MDL7 group loop: the 44-byte group record
(B B B B i 16s i i i i i), then the group's skins, skin points, triangles,
main vertices and frames, merged into the running state; the vertex and
skin-point offsets grow by this group's declared counts afterwards. -/
def load_mdl7_group (data : Bytes) (hdr : Mdl7Header) (group_idx : Nat)
    (st : M7State) : Except PyErr M7State :=
  match readBytesI data st.off 44 with
  | none => .error .structError
  | some gb => do
    let num_skins := i32at gb 24
    let num_stpts := i32at gb 28
    let num_tris := i32at gb 32
    let num_verts := i32at gb 36
    let num_frames := i32at gb 40
    let off := st.off + 44
    let (off, skins, sw, sh) ←
      load_group_skins data hdr num_skins.toNat off st.skins
        st.skinwidth st.skinheight
    let (spts, off) ←
      load_group_skinpoints data hdr.skinpoint_stc_size num_stpts.toNat off
    let (tris, off) ←
      load_group_tris data hdr.triangle_stc_size st.vertex_offset
        st.skinvert_offset num_tris.toNat off
    let (gverts, off) ←
      load_group_verts data hdr.mainvertex_stc_size num_verts.toNat off
    let (frames, off) ←
      load_group_frames data hdr group_idx gverts 0 num_frames.toNat off
        st.frames
    .ok { off := off, skins := skins, skinwidth := sw, skinheight := sh
          all_skinverts := st.all_skinverts ++ spts
          all_triangles := st.all_triangles ++ tris
          frames := frames
          vertex_offset := st.vertex_offset + num_verts
          skinvert_offset := st.skinvert_offset + num_stpts }

/-- Iterate the group loop over the header-declared group count. -/
def load_mdl7_groups (data : Bytes) (hdr : Mdl7Header) :
    Nat → Nat → M7State → Except PyErr M7State
  | _, 0, st => .ok st
  | gi, n + 1, st => do
    let st' ← load_mdl7_group data hdr gi st
    load_mdl7_groups data hdr (gi + 1) n st'

/-- The decoded MDL7 model, with the merged flat collections and the final
accumulator values stored back into the header-compatibility counts. -/
structure Mdl7 where
  header : Mdl7Header
  skins : List SkinG
  skinwidth : Int
  skinheight : Int
  skinverts : List (ℚ × ℚ)
  triangles : List Tri7
  frames : List FrameG
  num_verts : Int
  num_tris : Nat
  num_frames : Nat
  num_skinverts : Int
deriving DecidableEq

/-- MDL._load_mdl7: header, a skipped bone block of bones_num records of
the header-declared bone size, then the group loop. -/
def load_mdl7 (data : Bytes) : Except PyErr Mdl7 := do
  let (hdr, off0) ← parse_mdl7_header data
  let off : Int := off0 + hdr.bones_num * hdr.bone_stc_size
  let st ← load_mdl7_groups data hdr 0 hdr.groups_num.toNat
    { off := off, skins := [], skinwidth := 0, skinheight := 0,
      all_skinverts := [], all_triangles := [], frames := [],
      vertex_offset := 0, skinvert_offset := 0 }
  .ok { header := hdr, skins := st.skins, skinwidth := st.skinwidth
        skinheight := st.skinheight, skinverts := st.all_skinverts
        triangles := st.all_triangles, frames := st.frames
        num_verts := st.vertex_offset, num_tris := st.all_triangles.length
        num_frames := st.frames.length
        num_skinverts := st.skinvert_offset }

/-- A two-group MDL7 file: group 0 has 5 vertices and nothing else, group 1
has 7 vertices and one triangle whose local vertex and skin-point index
triples are both (0, 1, 2). Structure sizes: bone 20, skin 28, skin-point
8, triangle 12, main-vertex 12, frame-vertex 14, frame 24. -/
def c7buf : Bytes :=
  [77, 68, 76, 55] ++ i32le 1 ++ i32le 0 ++ i32le 2 ++
  i32le 0 ++ i32le 0 ++ i32le 0 ++
  u16le 20 ++ u16le 28 ++ u16le 0 ++ u16le 0 ++ u16le 8 ++
  u16le 12 ++ u16le 12 ++ u16le 14 ++ u16le 0 ++ u16le 24 ++
  List.replicate 24 0 ++ i32le 0 ++ i32le 0 ++ i32le 0 ++ i32le 5 ++
  i32le 0 ++
  List.replicate 60 0 ++
  List.replicate 24 0 ++ i32le 0 ++ i32le 0 ++ i32le 1 ++ i32le 7 ++
  i32le 0 ++
  u16le 0 ++ u16le 1 ++ u16le 2 ++ u16le 0 ++ u16le 1 ++ u16le 2 ++
  List.replicate 84 0

/-! ## WMB world loader — src/viewer/wmb_loader.py -/

/-- One (offset, length) pair of the list directory. -/
structure Lump where
  off : Nat
  len : Nat
deriving DecidableEq

/-- The file version, as dispatched on the 4-byte tag. -/
inductive WmbVer where
  | wmb4
  | wmb6
  | wmb7
deriving DecidableEq

/-- Read n (offset, length) directory pairs, one II unpack_from each. -/
def read_lumps (data : Bytes) : Nat → Nat → Except PyErr (List Lump)
  | 0, _ => .ok []
  | n + 1, off =>
    match readBytes data off 8 with
    | none => .error .structError
    | some b => do
      let rest ← read_lumps data n (off + 8)
      .ok ({ off := u32at b 0, len := u32at b 4 } :: rest)

/-- Directory access by position, as the Python dict of named lists. -/
def lumpAt (ls : List Lump) (i : Nat) : Lump :=
  ls.getD i { off := 0, len := 0 }

/-- The pixel encodings assigned by WMB._load_textures. -/
inductive TexFormat where
  | rgb565
  | rgb888
  | rgba8888
  | palette8
  | dds
  | unknown
deriving DecidableEq

/-- One decoded texture: the 40-byte image header fields and, when the
format is recognized, the copied pixel bytes. -/
structure Texture where
  name : Bytes
  width : Nat
  height : Nat
  type_code : Nat
  format : TexFormat
  pixels : Option Bytes
deriving DecidableEq

/-- Decode one texture at base + relOff: a 16s name, III
width/height/type, then the cursor moved 32 bytes past the record start to
the pixel bytes. WMB4/WMB6 map type codes through an explicit table
(40/8/2 rgb565, 48/16/4 rgb888, 56/24/5 rgba8888) with a legacy-size
heuristic fallback reading the u32 located 12 bytes before the pixels;
WMB7 uses the low three bits (0 palette8, 2 rgb565, 4 rgb888, 5 rgba8888,
6 DDS whose byte size is the width field). Pixel bytes come from clamping
slices. -/
def load_texture_at (ver : WmbVer) (data : Bytes) (base relOff : Nat) :
    Except PyErr Texture :=
  match readBytes data (base + relOff) 16 with
  | none => .error .structError
  | some nm =>
    match readBytes data (base + relOff + 16) 12 with
    | none => .error .structError
    | some whb =>
      let width := u32at whb 0
      let height := u32at whb 4
      let tex_type := u32at whb 8
      let pix := base + relOff + 32
      let name := stripNulls nm
      match ver with
      | .wmb4 | .wmb6 =>
        if tex_type = 40 ∨ tex_type = 8 ∨ tex_type = 2 then
          .ok { name := name, width := width, height := height,
                type_code := tex_type, format := .rgb565,
                pixels := some (sliceAt data pix (width * height * 2)) }
        else if tex_type = 48 ∨ tex_type = 16 ∨ tex_type = 4 then
          .ok { name := name, width := width, height := height,
                type_code := tex_type, format := .rgb888,
                pixels := some (sliceAt data pix (width * height * 3)) }
        else if tex_type = 56 ∨ tex_type = 24 ∨ tex_type = 5 then
          .ok { name := name, width := width, height := height,
                type_code := tex_type, format := .rgba8888,
                pixels := some (sliceAt data pix (width * height * 4)) }
        else
          match readU32 data (pix - 12) with
          | none => .error .structError
          | some legacy =>
            if legacy = width * height * 2 + 40 ∨
                ((legacy : Int) - (width * height * 2 + 40 : Nat)).natAbs < 100 then
              .ok { name := name, width := width, height := height,
                    type_code := tex_type, format := .rgb565,
                    pixels := some (sliceAt data pix (width * height * 2)) }
            else
              .ok { name := name, width := width, height := height,
                    type_code := tex_type, format := .unknown,
                    pixels := none }
      | .wmb7 =>
        let base_type := tex_type % 8
        if base_type = 6 then
          .ok { name := name, width := width, height := height,
                type_code := tex_type, format := .dds,
                pixels := some (sliceAt data pix width) }
        else if base_type = 5 then
          .ok { name := name, width := width, height := height,
                type_code := tex_type, format := .rgba8888,
                pixels := some (sliceAt data pix (width * height * 4)) }
        else if base_type = 4 then
          .ok { name := name, width := width, height := height,
                type_code := tex_type, format := .rgb888,
                pixels := some (sliceAt data pix (width * height * 3)) }
        else if base_type = 2 then
          .ok { name := name, width := width, height := height,
                type_code := tex_type, format := .rgb565,
                pixels := some (sliceAt data pix (width * height * 2)) }
        else if base_type = 0 then
          .ok { name := name, width := width, height := height,
                type_code := tex_type, format := .palette8,
                pixels := some (sliceAt data pix (width * height)) }
        else
          .ok { name := name, width := width, height := height,
                type_code := tex_type, format := .unknown,
                pixels := none }

/-- Decode each texture of the relative-offset table in turn. -/
def load_textures_go (ver : WmbVer) (data : Bytes) (base : Nat) :
    List Nat → Except PyErr (List Texture)
  | [] => .ok []
  | relOff :: rest => do
    let t ← load_texture_at ver data base relOff
    let ts ← load_textures_go ver data base rest
    .ok (t :: ts)

/-- WMB._load_textures: a no-op on a zero-length lump, otherwise a u32
count, that many u32 relative offsets, then the texture records. -/
def load_textures (ver : WmbVer) (data : Bytes) (lump : Lump) :
    Except PyErr (List Texture) :=
  if lump.len = 0 then .ok []
  else do
    let cnt ← expectU32 data lump.off
    let offs ← readU32List data (lump.off + 4) cnt
    load_textures_go ver data lump.off offs

/-- One WMB4/WMB6 texinfo record: projection vectors and offsets, texture
index and flags. -/
structure TexInfo where
  s_vec : Vec3q
  s_off : ℚ
  t_vec : Vec3q
  t_off : ℚ
  texture : Nat
  flags : Nat
deriving DecidableEq

/-- The 64-byte texinfo records of WMB._load_wmb6_texinfo, read from the
materials lump. -/
def load_wmb6_texinfo_go (data : Bytes) : Nat → Nat →
    Except PyErr (List TexInfo)
  | 0, _ => .ok []
  | n + 1, off =>
    match readBytes data off 12, readBytes data (off + 12) 4,
        readBytes data (off + 16) 12, readBytes data (off + 28) 4,
        readBytes data (off + 32) 8 with
    | some sv, some so, some tv, some to_, some tf => do
      let rest ← load_wmb6_texinfo_go data n (off + 64)
      .ok ({ s_vec := (f32at sv 0, f32at sv 4, f32at sv 8)
             s_off := f32at so 0
             t_vec := (f32at tv 0, f32at tv 4, f32at tv 8)
             t_off := f32at to_ 0
             texture := u32at tf 0
             flags := u32at tf 4 } :: rest)
    | _, _, _, _, _ => .error .structError

/-- WMB._load_wmb6_texinfo: a no-op on a zero-length lump, otherwise
length // 64 records. -/
def load_wmb6_texinfo (data : Bytes) (lump : Lump) :
    Except PyErr (List TexInfo) :=
  if lump.len = 0 then .ok []
  else load_wmb6_texinfo_go data (lump.len / 64) lump.off

/-- The 12-byte fff vertex records of WMB._load_wmb6_vertices. -/
def load_wmb6_vertices_go (data : Bytes) : Nat → Nat →
    Except PyErr (List Vec3q)
  | 0, _ => .ok []
  | n + 1, off =>
    match readBytes data off 12 with
    | none => .error .structError
    | some b => do
      let rest ← load_wmb6_vertices_go data n (off + 12)
      .ok ((f32at b 0, f32at b 4, f32at b 8) :: rest)

/-- WMB._load_wmb6_vertices: a no-op on a zero-length lump, otherwise
length // 12 position triples. -/
def load_wmb6_vertices (data : Bytes) (lump : Lump) :
    Except PyErr (List Vec3q) :=
  if lump.len = 0 then .ok []
  else load_wmb6_vertices_go data (lump.len / 12) lump.off

/-- The 8-byte II edge records of WMB._load_wmb6_edges. -/
def load_wmb6_edges_go (data : Bytes) : Nat → Nat →
    Except PyErr (List (Nat × Nat))
  | 0, _ => .ok []
  | n + 1, off =>
    match readBytes data off 8 with
    | none => .error .structError
    | some b => do
      let rest ← load_wmb6_edges_go data n (off + 8)
      .ok ((u32at b 0, u32at b 4) :: rest)

/-- WMB._load_wmb6_edges: a no-op on a zero-length lump, otherwise an
8-byte sub-header is skipped and (length - 8) // 8 vertex-index pairs
follow. -/
def load_wmb6_edges (data : Bytes) (lump : Lump) :
    Except PyErr (List (Nat × Nat)) :=
  if lump.len = 0 then .ok []
  else load_wmb6_edges_go data ((lump.len - 8) / 8) (lump.off + 8)

/-- The i32 surfedge entries of WMB._load_wmb6_surfedges. -/
def load_wmb6_surfedges_go (data : Bytes) : Nat → Nat →
    Except PyErr (List Int)
  | 0, _ => .ok []
  | n + 1, off =>
    match readU32 data off with
    | none => .error .structError
    | some v => do
      let rest ← load_wmb6_surfedges_go data n (off + 4)
      .ok (toI32 v :: rest)

/-- WMB._load_wmb6_surfedges: the surfedges actually live in the lump the
directory calls skins; a no-op on a zero-length lump, otherwise
length // 4 signed 1-indexed entries. -/
def load_wmb6_surfedges (data : Bytes) (lump : Lump) :
    Except PyErr (List Int) :=
  if lump.len = 0 then .ok []
  else load_wmb6_surfedges_go data (lump.len / 4) lump.off

/-- Resolve one signed 1-indexed surfedge to an ordered vertex pair:
edge index abs(s) - 1 must be in range (else the entry is skipped), and a
negative surfedge reverses the edge's vertex order. -/
def resolveSurfedge (edges : List (Nat × Nat)) (s : Int) :
    Option (Nat × Nat) :=
  let eIdx : Int := (s.natAbs : Int) - 1
  if 0 ≤ eIdx ∧ eIdx < (edges.length : Int) then
    let e := edges.getD eIdx.toNat (0, 0)
    if s < 0 then some (e.2, e.1) else some (e.1, e.2)
  else none

/-- The vertex-loop walk of WMB._load_wmb6_faces: e counts surfedges
first_surfedge .. first_surfedge + num_verts - 1, out-of-range surfedge
positions and out-of-range edge indices are skipped, the first resolved
edge seeds the loop with its first vertex, and every resolved edge appends
its second vertex. -/
def buildFaceVertsAux (surfedges : List Int) (edges : List (Nat × Nat))
    (first : Nat) : Nat → Nat → List Nat → List Nat
  | _, 0, acc => acc
  | e, k + 1, acc =>
    let idx := first + e
    if idx < surfedges.length then
      match resolveSurfedge edges (surfedges.getD idx 0) with
      | none => buildFaceVertsAux surfedges edges first (e + 1) k acc
      | some (v1, v2) =>
        let acc := if acc.isEmpty then [v1, v2] else acc ++ [v2]
        buildFaceVertsAux surfedges edges first (e + 1) k acc
    else
      buildFaceVertsAux surfedges edges first (e + 1) k acc

/-- Rebuild one face's ordered vertex loop from its surfedge run. -/
def buildFaceVerts (surfedges : List Int) (edges : List (Nat × Nat))
    (first n : Nat) : List Nat :=
  buildFaceVertsAux surfedges edges first 0 n []

/-- One decoded WMB4/WMB6 face: the raw record fields and the rebuilt
vertex loop. -/
structure Face where
  flags : Nat
  first_edge : Nat
  num_verts : Nat
  tex_idx : Nat
  skin : Nat
  vertices : List Nat
deriving DecidableEq

/-- The 24-byte 6I face records: flags, first surfedge, a packed field
whose low 16 bits are the vertex count and next 16 bits the texinfo index,
and the skin field; every record is appended with whatever vertex loop the
walk produced. -/
def load_wmb6_faces_go (data : Bytes) (surfedges : List Int)
    (edges : List (Nat × Nat)) : Nat → Nat → Except PyErr (List Face)
  | 0, _ => .ok []
  | n + 1, off =>
    match readBytes data off 24 with
    | none => .error .structError
    | some b => do
      let flags := u32at b 0
      let first_surfedge := u32at b 4
      let tex_info := u32at b 8
      let skin := u32at b 20
      let num_verts := tex_info % 65536
      let tex_idx := tex_info / 65536 % 65536
      let rest ← load_wmb6_faces_go data surfedges edges n (off + 24)
      .ok ({ flags := flags, first_edge := first_surfedge
             num_verts := num_verts, tex_idx := tex_idx, skin := skin
             vertices := buildFaceVerts surfedges edges first_surfedge
               num_verts } :: rest)

/-- WMB._load_wmb6_faces: a no-op on a zero-length faces lump (the
surfedges then stay unloaded, i.e. empty), otherwise the surfedges are
loaded first and length // 24 face records follow. Returns the faces and
the surfedges it loaded. -/
def load_wmb6_faces (data : Bytes) (faceLump skinsLump : Lump)
    (edges : List (Nat × Nat)) : Except PyErr (List Face × List Int) :=
  if faceLump.len = 0 then .ok ([], [])
  else do
    let surfedges ← load_wmb6_surfedges data skinsLump
    let faces ← load_wmb6_faces_go data surfedges edges
      (faceLump.len / 24) faceLump.off
    .ok (faces, surfedges)

/-- The 64-byte WMB7 material records: only the 20-byte name 44 bytes in is
kept. -/
def load_materials_go (data : Bytes) : Nat → Nat →
    Except PyErr (List Bytes)
  | 0, _ => .ok []
  | n + 1, off =>
    match readBytes data (off + 44) 20 with
    | none => .error .structError
    | some nm => do
      let rest ← load_materials_go data n (off + 64)
      .ok (stripNulls nm :: rest)

/-- WMB._load_materials: a no-op on a zero-length lump, otherwise
length // 64 names. -/
def load_materials (data : Bytes) (lump : Lump) :
    Except PyErr (List Bytes) :=
  if lump.len = 0 then .ok []
  else load_materials_go data (lump.len / 64) lump.off

/-- One raw 1024x1024 RGB lightmap image. -/
structure Lightmap where
  width : Nat
  height : Nat
  pixels : Bytes
deriving DecidableEq

/-- The fixed-size lightmap blobs, copied via clamping slices. -/
def load_lightmaps_go (data : Bytes) : Nat → Nat → List Lightmap
  | 0, _ => []
  | n + 1, off =>
    { width := 1024, height := 1024,
      pixels := sliceAt data off (1024 * 1024 * 3) } ::
      load_lightmaps_go data n (off + 1024 * 1024 * 3)

/-- WMB._load_lightmaps: a no-op on a zero-length lump, otherwise
length // (1024*1024*3) images. -/
def load_lightmaps (data : Bytes) (lump : Lump) :
    Except PyErr (List Lightmap) :=
  if lump.len = 0 then .ok []
  else .ok (load_lightmaps_go data (lump.len / (1024 * 1024 * 3)) lump.off)

/-- One WMB7 block vertex: position, texture UV and lightmap UV. -/
structure BlockVertex where
  pos : Vec3q
  uv : ℚ × ℚ
  lm_uv : ℚ × ℚ
deriving DecidableEq

/-- One WMB7 block triangle: three i16 vertex indices and an i16 skin
index. -/
structure BlockTriangle where
  indices : Int × Int × Int
  skin : Int
deriving DecidableEq

/-- One WMB7 block skin: texture/lightmap/material references, lighting
scalars and flags. -/
structure BlockSkin where
  texture : Int
  lightmap : Int
  material : Nat
  ambient : ℚ
  albedo : ℚ
  flags : Nat
deriving DecidableEq

/-- One WMB7 geometry block. -/
structure Block where
  mins : Vec3q
  maxs : Vec3q
  content : Nat
  num_verts : Nat
  num_tris : Nat
  num_skins : Nat
  vertices : List BlockVertex
  triangles : List BlockTriangle
  skins : List BlockSkin
deriving DecidableEq

/-- The 28-byte 7f block vertex records. -/
def load_block_vertices (data : Bytes) : Nat → Nat →
    Except PyErr (List BlockVertex × Nat)
  | 0, off => .ok ([], off)
  | n + 1, off =>
    match readBytes data off 28 with
    | none => .error .structError
    | some b => do
      let (rest, off') ← load_block_vertices data n (off + 28)
      .ok ({ pos := (f32at b 0, f32at b 4, f32at b 8)
             uv := (f32at b 12, f32at b 16)
             lm_uv := (f32at b 20, f32at b 24) } :: rest, off')

/-- The 12-byte 4hI block triangle records. -/
def load_block_triangles (data : Bytes) : Nat → Nat →
    Except PyErr (List BlockTriangle × Nat)
  | 0, off => .ok ([], off)
  | n + 1, off =>
    match readBytes data off 12 with
    | none => .error .structError
    | some b => do
      let (rest, off') ← load_block_triangles data n (off + 12)
      .ok ({ indices := (i16at b 0, i16at b 2, i16at b 4)
             skin := i16at b 6 } :: rest, off')

/-- The 20-byte block skin records (hhI at 0, ff at 8, I at 16). -/
def load_block_skins (data : Bytes) : Nat → Nat →
    Except PyErr (List BlockSkin × Nat)
  | 0, off => .ok ([], off)
  | n + 1, off =>
    match readBytes data off 8, readBytes data (off + 8) 8,
        readBytes data (off + 16) 4 with
    | some b1, some b2, some b3 => do
      let (rest, off') ← load_block_skins data n (off + 20)
      .ok ({ texture := i16at b1 0, lightmap := i16at b1 2
             material := u32at b1 4
             ambient := f32at b2 0, albedo := f32at b2 4
             flags := u32at b3 0 } :: rest, off')
    | _, _, _ => .error .structError

/-- One 40-byte block summary (6f4I) followed by its vertex, triangle and
skin records, consumed contiguously in that order. -/
def load_blocks_go (data : Bytes) : Nat → Nat → Except PyErr (List Block)
  | 0, _ => .ok []
  | n + 1, off =>
    match readBytes data off 40 with
    | none => .error .structError
    | some b => do
      let nv := u32at b 28
      let nt := u32at b 32
      let ns := u32at b 36
      let (verts, off) ← load_block_vertices data nv (off + 40)
      let (tris, off) ← load_block_triangles data nt off
      let (skins, off) ← load_block_skins data ns off
      let rest ← load_blocks_go data n off
      .ok ({ mins := (f32at b 0, f32at b 4, f32at b 8)
             maxs := (f32at b 12, f32at b 16, f32at b 20)
             content := u32at b 24, num_verts := nv, num_tris := nt
             num_skins := ns, vertices := verts, triangles := tris
             skins := skins } :: rest)

/-- WMB._load_blocks: a no-op when the lump is zero-length or its offset
lies at or past the end of the buffer, otherwise a u32 block count and
that many blocks. -/
def load_blocks (data : Bytes) (lump : Lump) : Except PyErr (List Block) :=
  if lump.len = 0 ∨ data.length ≤ lump.off then .ok []
  else do
    let cnt ← expectU32 data lump.off
    load_blocks_go data cnt (lump.off + 4)

/-- The type-specific payload of one placed object; unrecognized type
codes carry no payload and keep the record opaque. -/
inductive OPayload where
  | info (origin : Vec3q) (azimuth elevation : ℚ)
  | position (origin angle : Vec3q) (pos_name : Bytes)
  | light (origin color : Vec3q) (lrange : ℚ)
  | old_entity (origin angle scalev : Vec3q) (ent_name filename : Bytes)
  | entity (origin angle scalev : Vec3q) (ent_name filename : Bytes)
  | unknown
deriving DecidableEq

/-- One placed object: its position in the lump's offset table, the raw
u32 type code and the decoded payload. -/
structure PObj where
  index : Nat
  type_code : Nat
  payload : OPayload
deriving DecidableEq

/-- A 12-byte fff triple at an absolute offset. -/
def readF32Triple (data : Bytes) (off : Nat) : Except PyErr Vec3q :=
  match readBytes data off 12 with
  | none => .error .structError
  | some b => .ok (f32at b 0, f32at b 4, f32at b 8)

/-- Decode one placed-object record at absOff: a u32 type code dispatched
to the five known fixed layouts (5 Info, 1 Position, 2 Light, 3 OldEntity
with 13-byte filename, 7 Entity with 33-byte filenames); any other code is
preserved as an opaque record with no further reads. -/
def load_object_at (data : Bytes) (i absOff : Nat) : Except PyErr PObj := do
  let t ← expectU32 data absOff
  if t = 5 then
    let origin ← readF32Triple data (absOff + 4)
    match readBytes data (absOff + 16) 8 with
    | none => .error .structError
    | some b =>
      .ok { index := i, type_code := t,
            payload := .info origin (f32at b 0) (f32at b 4) }
  else if t = 1 then
    let origin ← readF32Triple data (absOff + 4)
    let angle ← readF32Triple data (absOff + 16)
    match readBytes data (absOff + 36) 20 with
    | none => .error .structError
    | some nm =>
      .ok { index := i, type_code := t,
            payload := .position origin angle (stripNulls nm) }
  else if t = 2 then
    let origin ← readF32Triple data (absOff + 4)
    let color ← readF32Triple data (absOff + 16)
    match readBytes data (absOff + 28) 4 with
    | none => .error .structError
    | some r =>
      .ok { index := i, type_code := t,
            payload := .light origin color (f32at r 0) }
  else if t = 3 then
    let origin ← readF32Triple data (absOff + 4)
    let angle ← readF32Triple data (absOff + 16)
    let scalev ← readF32Triple data (absOff + 28)
    match readBytes data (absOff + 40) 20, readBytes data (absOff + 60) 13 with
    | some en, some fn =>
      .ok { index := i, type_code := t,
            payload := .old_entity origin angle scalev (stripNulls en)
              (stripNulls fn) }
    | _, _ => .error .structError
  else if t = 7 then
    let origin ← readF32Triple data (absOff + 4)
    let angle ← readF32Triple data (absOff + 16)
    let scalev ← readF32Triple data (absOff + 28)
    match readBytes data (absOff + 40) 33, readBytes data (absOff + 73) 33 with
    | some en, some fn =>
      .ok { index := i, type_code := t,
            payload := .entity origin angle scalev (stripNulls en)
              (stripNulls fn) }
    | _, _ => .error .structError
  else
    .ok { index := i, type_code := t, payload := .unknown }

/-- Decode every object of the offset table, tracking the enumeration
index and the last Info record seen (Python's self.info). -/
def load_objects_go (data : Bytes) (base : Nat) :
    List Nat → Nat → Option PObj → Except PyErr (List PObj × Option PObj)
  | [], _, inf => .ok ([], inf)
  | relOff :: rest, i, inf => do
    let obj ← load_object_at data i (base + relOff)
    let inf := if obj.type_code = 5 then some obj else inf
    let (objs, inf') ← load_objects_go data base rest (i + 1) inf
    .ok (obj :: objs, inf')

/-- WMB._load_objects: a no-op on a zero-length lump, otherwise a u32
count, that many u32 relative offsets, then one record per offset — every
record is appended, whatever its type code. -/
def load_objects (data : Bytes) (lump : Lump) :
    Except PyErr (List PObj × Option PObj) :=
  if lump.len = 0 then .ok ([], none)
  else do
    let cnt ← expectU32 data lump.off
    let offs ← readU32List data (lump.off + 4) cnt
    load_objects_go data lump.off offs 0 none

/-- The decoded WMB4/WMB6 world. -/
structure Wmb6 where
  lumps : List Lump
  textures : List Texture
  texinfo : List TexInfo
  vertices : List Vec3q
  edges : List (Nat × Nat)
  surfedges : List Int
  faces : List Face
  objects : List PObj
  info : Option PObj
deriving DecidableEq

/-- WMB._load_wmb6: the 17-entry list directory after the tag, then
textures, texinfo (from the materials lump), vertices, edges, faces (with
surfedges from the lump named skins) and objects. -/
def load_wmb6 (data : Bytes) : Except PyErr Wmb6 := do
  let lumps ← read_lumps data 17 4
  let textures ← load_textures .wmb6 data (lumpAt lumps 2)
  let texinfo ← load_wmb6_texinfo data (lumpAt lumps 6)
  let vertices ← load_wmb6_vertices data (lumpAt lumps 3)
  let edges ← load_wmb6_edges data (lumpAt lumps 12)
  let (faces, surfedges) ←
    load_wmb6_faces data (lumpAt lumps 7) (lumpAt lumps 13) edges
  let (objects, inf) ← load_objects data (lumpAt lumps 15)
  .ok { lumps := lumps, textures := textures, texinfo := texinfo
        vertices := vertices, edges := edges, surfedges := surfedges
        faces := faces, objects := objects, info := inf }

/-- WMB._load_wmb4: identical flow over a 16-entry directory; the lumps
the loader uses sit at the same directory positions as in WMB6. -/
def load_wmb4 (data : Bytes) : Except PyErr Wmb6 := do
  let lumps ← read_lumps data 16 4
  let textures ← load_textures .wmb4 data (lumpAt lumps 2)
  let texinfo ← load_wmb6_texinfo data (lumpAt lumps 6)
  let vertices ← load_wmb6_vertices data (lumpAt lumps 3)
  let edges ← load_wmb6_edges data (lumpAt lumps 12)
  let (faces, surfedges) ←
    load_wmb6_faces data (lumpAt lumps 7) (lumpAt lumps 13) edges
  let (objects, inf) ← load_objects data (lumpAt lumps 15)
  .ok { lumps := lumps, textures := textures, texinfo := texinfo
        vertices := vertices, edges := edges, surfedges := surfedges
        faces := faces, objects := objects, info := inf }

/-- The decoded WMB7 world. -/
structure Wmb7 where
  lumps : List Lump
  textures : List Texture
  materials : List Bytes
  lightmaps : List Lightmap
  blocks : List Block
  objects : List PObj
  info : Option PObj
deriving DecidableEq

/-- WMB._load_wmb7: the 20-entry list directory, then textures, materials,
lightmaps, blocks and objects. -/
def load_wmb7 (data : Bytes) : Except PyErr Wmb7 := do
  let lumps ← read_lumps data 20 4
  let textures ← load_textures .wmb7 data (lumpAt lumps 2)
  let materials ← load_materials data (lumpAt lumps 6)
  let lightmaps ← load_lightmaps data (lumpAt lumps 16)
  let blocks ← load_blocks data (lumpAt lumps 17)
  let (objects, inf) ← load_objects data (lumpAt lumps 15)
  .ok { lumps := lumps, textures := textures, materials := materials
        lightmaps := lightmaps, blocks := blocks, objects := objects
        info := inf }

/-! ## Concrete WMB input buffers for the claims -/

/-- Serialize a list directory from (offset, length) pairs. -/
def dirBytes (ps : List (Nat × Nat)) : Bytes :=
  (ps.map (fun p => u32le p.1 ++ u32le p.2)).flatten

/-- A WMB6 file whose only non-empty lump is a single 24-byte face record
declaring a 3-vertex surfedge run, with no surfedges and no edges present:
every surfedge position is out of range. -/
def c4buf : Bytes :=
  [87, 77, 66, 54] ++
  dirBytes (List.replicate 7 (0, 0) ++ [(140, 24)] ++
    List.replicate 9 (0, 0)) ++
  u32le 0 ++ u32le 0 ++ u32le 3 ++ u32le 0 ++ u32le 0 ++ u32le 0

/-- A WMB6 file holding a closed quad: four edges (0,1) (1,2) (2,3) (3,0)
behind the 8-byte edge sub-header, four positive matching-direction
surfedges 1 2 3 4, and one face walking all four from the start. -/
def c5buf : Bytes :=
  [87, 77, 66, 54] ++
  dirBytes (List.replicate 7 (0, 0) ++ [(196, 24)] ++
    List.replicate 4 (0, 0) ++ [(140, 40), (180, 16)] ++
    List.replicate 3 (0, 0)) ++
  List.replicate 8 0 ++
  u32le 0 ++ u32le 1 ++ u32le 1 ++ u32le 2 ++
  u32le 2 ++ u32le 3 ++ u32le 3 ++ u32le 0 ++
  i32le 1 ++ i32le 2 ++ i32le 3 ++ i32le 4 ++
  u32le 0 ++ u32le 0 ++ u32le 4 ++ u32le 0 ++ u32le 0 ++ u32le 0

/-- A bare objects lump: one object whose record (at relative offset 8)
has the unrecognized type code 42. -/
def c9data : Bytes :=
  u32le 1 ++ u32le 8 ++ u32le 42

/-- A header value for witness instantiations. -/
def hdr0 : IdpoHeader :=
  { ident := [], version := 0, scale := (0, 0, 0), translate := (0, 0, 0),
    boundingradius := 0, eyeposition := (0, 0, 0), num_skins := 0,
    skinwidth := 0, skinheight := 0, num_verts := 0, num_tris := 0,
    num_frames := 0, synctype := 0, flags := 0, size := 0 }

deriving instance DecidableEq for Except

set_option maxRecDepth 100000

/-! ## Theorems -/

/-- Claim C1 (corrected). The claim says every truncation of a valid file
before its declared end fails with TruncatedInput and no short structure
is ever returned. In the code, struct.unpack_from reads do fail on a short
span, but the skin-pixel and frame-vertex reads are Python slices that
clamp: this counterexample truncates the 92-byte valid file c1file to 90
bytes, inside its skin pixel block, and the decode succeeds, returning a
skin holding 2 of its 4 declared pixel bytes. -/
theorem c1_counterexample :
    (load_idpo c1buf).toOption.map (fun m => m.skins.map skinDataLength) =
      some [2] ∧
    c1buf = c1file.take 90 ∧ c1file.length = 92 ∧ 2 ≠ 2 * 2 := by
  exact ⟨by decide, rfl, by decide, by decide⟩

/-- Claim C1, amended: a struct.unpack_from read fails exactly when its
span exceeds the buffer (never yielding fewer bytes than requested), while
a slice read clamps to what is available; consequently truncating c1file
anywhere before its skin pixel block (byte 88) aborts the decode with an
error, and truncating inside the pixel block (bytes 88-91) silently
returns a model whose skin has only the bytes that were present. -/
theorem c1_truncation_behavior :
    (∀ (data : Bytes) (off n : Nat),
      readBytes data off n = none ↔ data.length < off + n) ∧
    (∀ (data : Bytes) (off n : Nat),
      (sliceAt data off n).length = min n (data.length - off)) ∧
    (∀ k, k < 88 → (load_idpo (c1file.take k)).toOption = none) ∧
    (∀ k, 88 ≤ k → k < 92 →
      (load_idpo (c1file.take k)).toOption.map
        (fun m => m.skins.map skinDataLength) = some [k - 88]) := by
  refine ⟨?_, ?_, by decide, by decide⟩
  · intro data off n
    by_cases h : off + n ≤ data.length
    · simp only [readBytes, if_pos h]
      constructor
      · intro hc
        exact absurd hc (by simp)
      · omega
    · simp only [readBytes, if_neg h]
      constructor
      · intro _
        omega
      · intro _
        trivial
  · intro data off n
    simp [sliceAt]

/-- Witness for c1_truncation_behavior at concrete truncation points. -/
theorem c1_truncation_behavior_witness :
    (load_idpo (c1file.take 0)).toOption = none ∧
    (load_idpo (c1file.take 88)).toOption.map
      (fun m => m.skins.map skinDataLength) = some [88 - 88] :=
  ⟨c1_truncation_behavior.2.2.1 0 (by decide),
   c1_truncation_behavior.2.2.2 88 (by decide) (by decide)⟩

/-- Claim C2 (corrected). The claim says a non-zero frame type aborts the
whole decode with UnsupportedGroupFrame and no partial Model is returned.
In the code the frame loop just logs and returns early: this IDPO file
declares 2 frames, the second being a group frame (type 1), and decoding
succeeds with a Model holding 1 of its 2 declared frames. -/
theorem c2_counterexample :
    (load_idpo c2buf).toOption.map
      (fun m => (m.frames.length, m.header.num_frames)) = some (1, 2) := by
  decide

/-- Claim C2, amended: on a non-zero frame type MDL._load_frames_idpo
stops reading further frames and returns normally (no error), so the
frames decoded before it are kept and the caller receives a partial
model. -/
theorem c2_group_frame_stops (data : Bytes) (hdr : IdpoHeader)
    (n off ft : Nat) (h : readU32 data off = some ft) (hft : ft ≠ 0) :
    load_frames_idpo data hdr (n + 1) off = .ok ([], off + 4) := by
  simp [load_frames_idpo, expectU32, h, hft, Bind.bind, Except.bind]

/-- Witness for c2_group_frame_stops on a buffer whose next frame type
is 1. -/
theorem c2_group_frame_stops_witness :
    load_frames_idpo [1, 0, 0, 0] hdr0 1 0 = .ok ([], 0 + 4) :=
  c2_group_frame_stops [1, 0, 0, 0] hdr0 0 0 1 rfl (by decide)

/-- Claim C3 (corrected). The claim says an unrecognized skin type code
fails the decode hard with UnknownSkinType and the decoder never skips the
skin. In the code the unknown code is logged and the loop moves on without
appending a skin or consuming any bytes past the code: this IDPO file
declares one skin with type code 99 and decodes successfully with an
empty skin list. -/
theorem c3_counterexample :
    (load_idpo c3buf).toOption.map
      (fun m => (m.skins, m.header.num_skins)) = some ([], 1) := by
  decide

/-- Claim C3, amended: an unrecognized skin type code makes the skin loop
continue with the remaining skins at the offset right after the 4-byte
type code — nothing is appended, no pixel bytes are consumed and no
failure is raised. -/
theorem c3_unknown_skin_skipped (data : Bytes) (hdr : IdpoHeader)
    (n off t : Nat) (h : readU32 data off = some t) (h0 : t ≠ 0)
    (h1 : t ≠ 1) (h2 : t ≠ 2) (h3 : t ≠ 3) (h4 : t ≠ 4) (h5 : t ≠ 5) :
    load_skins_idpo data hdr (n + 1) off =
      load_skins_idpo data hdr n (off + 4) := by
  simp [load_skins_idpo, expectU32, h, h0, h1, h2, h3, h4, h5, Bind.bind,
    Except.bind]

/-- Witness for c3_unknown_skin_skipped on a buffer whose next skin type
code is 99. -/
theorem c3_unknown_skin_skipped_witness :
    load_skins_idpo [99, 0, 0, 0] hdr0 1 0 =
      load_skins_idpo [99, 0, 0, 0] hdr0 0 4 :=
  c3_unknown_skin_skipped [99, 0, 0, 0] hdr0 0 0 99 rfl (by decide)
    (by decide) (by decide) (by decide) (by decide) (by decide)

/-- The face loop appends exactly one face per 24-byte record it reads. -/
theorem load_wmb6_faces_go_length (data : Bytes) (se : List Int)
    (edges : List (Nat × Nat)) :
    ∀ (n off : Nat) (faces : List Face),
      load_wmb6_faces_go data se edges n off = .ok faces →
      faces.length = n := by
  intro n
  induction n with
  | zero =>
    intro off faces h
    simp only [load_wmb6_faces_go] at h
    cases h
    rfl
  | succ k ih =>
    intro off faces h
    simp only [load_wmb6_faces_go] at h
    cases hr : readBytes data off 24 with
    | none =>
      rw [hr] at h
      cases h
    | some b =>
      rw [hr] at h
      cases hg : load_wmb6_faces_go data se edges k (off + 24) with
      | error e =>
        rw [hg] at h
        simp [Bind.bind, Except.bind] at h
      | ok rest =>
        rw [hg] at h
        simp only [Bind.bind, Except.bind, Except.ok.injEq] at h
        rw [← h]
        simp [ih _ _ hg]

/-- Claim C4 (corrected). The claim says a face whose reconstruction is
not a closed loop of at least 3 vertices is dropped. In the code every
24-byte face record is appended, whatever the walk produced: this WMB6
file has one face declaring a 3-surfedge run but no surfedges and no
edges at all, and the decoded world keeps that face with an empty vertex
loop. -/
theorem c4_counterexample :
    (load_wmb6 c4buf).toOption.map
      (fun w => w.faces.map (fun f => (f.num_verts, f.vertices))) =
      some [(3, [])] ∧ ([] : List Nat).length < 3 :=
  ⟨by decide, by decide⟩

/-- Claim C4, amended: the face reader keeps exactly one face per 24-byte
record of the lump — out-of-range surfedge positions or edge indices only
skip individual loop entries, so a face can be kept with fewer than 3
vertices (even none) and no closure check exists; no face is ever
dropped. -/
theorem c4_faces_never_dropped (data : Bytes) (faceLump skinsLump : Lump)
    (edges : List (Nat × Nat)) (faces : List Face) (se : List Int)
    (h : load_wmb6_faces data faceLump skinsLump edges = .ok (faces, se)) :
    faces.length = faceLump.len / 24 := by
  by_cases h0 : faceLump.len = 0
  · simp only [load_wmb6_faces, if_pos h0] at h
    cases h
    simp [h0]
  · simp only [load_wmb6_faces, if_neg h0] at h
    cases hs : load_wmb6_surfedges data skinsLump with
    | error e =>
      rw [hs] at h
      cases h
    | ok se' =>
      rw [hs] at h
      simp only [Bind.bind, Except.bind] at h
      cases hg : load_wmb6_faces_go data se' edges (faceLump.len / 24)
          faceLump.off with
      | error e =>
        rw [hg] at h
        cases h
      | ok fs =>
        rw [hg] at h
        simp only [Except.ok.injEq, Prod.mk.injEq] at h
        rw [← h.1]
        exact load_wmb6_faces_go_length data se' edges _ _ _ hg

/-- Witness for c4_faces_never_dropped on a one-record faces lump. -/
theorem c4_faces_never_dropped_witness :
    ([{ flags := 0, first_edge := 0, num_verts := 0, tex_idx := 0,
        skin := 0, vertices := [] }] : List Face).length = 24 / 24 :=
  c4_faces_never_dropped (List.replicate 24 0) { off := 0, len := 24 }
    { off := 0, len := 0 } [] _ [] (by decide)

/-- Negating a surfedge resolves the same edge with its vertex pair
swapped. -/
theorem resolveSurfedge_neg (edges : List (Nat × Nat)) (s : Int) :
    resolveSurfedge edges (-s) =
      (resolveSurfedge edges s).map (fun e => (e.2, e.1)) := by
  unfold resolveSurfedge
  rw [Int.natAbs_neg]
  by_cases hc : 0 ≤ (s.natAbs : Int) - 1 ∧
      (s.natAbs : Int) - 1 < (edges.length : Int)
  · rw [if_pos hc, if_pos hc]
    have hs0 : s ≠ 0 := by
      intro h
      subst h
      simp at hc
    rcases lt_trichotomy s 0 with hs | hs | hs
    · rw [if_neg (by omega : ¬(-s < 0)), if_pos hs]
      simp
    · exact absurd hs hs0
    · rw [if_pos (by omega : -s < 0), if_neg (by omega : ¬(s < 0))]
      simp
  · rw [if_neg hc, if_neg hc]
    rfl

/-- Claim C5 (corrected). The claim says the reconstructed loop of a
closed quad referenced by 4 matching-direction surfedges has length 4. The
walk seeds with the first edge's first vertex and then appends one second
vertex per surfedge, so 4 surfedges produce 5 entries — the quad's cycle
with its first vertex repeated at the end: on this WMB6 quad file the
face's loop is [0, 1, 2, 3, 0], of length 5. -/
theorem c5_counterexample :
    (load_wmb6 c5buf).toOption.map (fun w => w.faces.map Face.vertices) =
      some [[0, 1, 2, 3, 0]] ∧
    ([0, 1, 2, 3, 0] : List Nat).length ≠ 4 :=
  ⟨by decide, by decide⟩

/-- Claim C5, amended: walking 4 surfedges 1 2 3 4 over the closed quad
edges (a,b) (b,c) (c,d) (d,a) reconstructs [a, b, c, d, a] — the quad's
vertex order followed by a closing repeat of the seed vertex, length 5
rather than 4 — and negating a surfedge reverses that edge's contribution
by swapping its resolved vertex pair. -/
theorem c5_quad_reconstruction :
    (∀ a b c d : Nat,
      buildFaceVerts [1, 2, 3, 4] [(a, b), (b, c), (c, d), (d, a)] 0 4 =
        [a, b, c, d, a]) ∧
    (∀ (edges : List (Nat × Nat)) (s : Int),
      resolveSurfedge edges (-s) =
        (resolveSurfedge edges s).map (fun e => (e.2, e.1))) :=
  ⟨fun _ _ _ _ => rfl, resolveSurfedge_neg⟩

/-- A slice entry is the buffer entry at the shifted position. -/
theorem sliceAt_getElem? (data : Bytes) (off n j : Nat) (hj : j < n) :
    (sliceAt data off n)[j]? = data[off + j]? := by
  simp [sliceAt, List.getElem?_take, List.getElem?_drop, hj]

/-- Every vertex the byte-packed de-quantization loop produces is its
packed byte times the scale plus the translate, per axis, taken from the
slice position of its index. -/
theorem decodeFrameVertsAux_spec (s1 s2 s3 t1 t2 t3 : ℚ) (vd : Bytes) :
    ∀ (k i : Nat) (vs : List Vec3q),
      decodeFrameVertsAux (s1, s2, s3) (t1, t2, t3) vd i k = .ok vs →
      vs.length = k ∧ ∀ j, j < k → vs.getD j (0, 0, 0) =
        ((vd.getD ((i + j) * 4) 0 : ℚ) * s1 + t1,
         (vd.getD ((i + j) * 4 + 1) 0 : ℚ) * s2 + t2,
         (vd.getD ((i + j) * 4 + 2) 0 : ℚ) * s3 + t3) := by
  intro k
  induction k with
  | zero =>
    intro i vs h
    simp only [decodeFrameVertsAux] at h
    cases h
    exact ⟨rfl, fun j hj => absurd hj (by omega)⟩
  | succ m ih =>
    intro i vs h
    simp only [decodeFrameVertsAux] at h
    cases h0 : (sliceAt vd (i * 4) 4).get? 0 with
    | none =>
      rw [h0] at h
      simp [Bind.bind, Except.bind] at h
    | some b0 =>
      rw [h0] at h
      cases h1 : (sliceAt vd (i * 4) 4).get? 1 with
      | none =>
        rw [h1] at h
        simp [Bind.bind, Except.bind] at h
      | some b1 =>
        rw [h1] at h
        cases h2 : (sliceAt vd (i * 4) 4).get? 2 with
        | none =>
          rw [h2] at h
          simp [Bind.bind, Except.bind] at h
        | some b2 =>
          rw [h2] at h
          cases hr : decodeFrameVertsAux (s1, s2, s3) (t1, t2, t3) vd
              (i + 1) m with
          | error e =>
            rw [hr] at h
            simp [Bind.bind, Except.bind] at h
          | ok rest =>
            rw [hr] at h
            simp only [Bind.bind, Except.bind, Except.ok.injEq] at h
            obtain ⟨hlen, hcomp⟩ := ih (i + 1) rest hr
            have hb0 : vd.getD (i * 4) 0 = b0 := by
              rw [List.get?_eq_getElem?,
                sliceAt_getElem? vd (i * 4) 4 0 (by omega)] at h0
              simp only [Nat.add_zero] at h0
              rw [List.getD_eq_getElem?_getD, h0]
              rfl
            have hb1 : vd.getD (i * 4 + 1) 0 = b1 := by
              rw [List.get?_eq_getElem?,
                sliceAt_getElem? vd (i * 4) 4 1 (by omega)] at h1
              rw [List.getD_eq_getElem?_getD, h1]
              rfl
            have hb2 : vd.getD (i * 4 + 2) 0 = b2 := by
              rw [List.get?_eq_getElem?,
                sliceAt_getElem? vd (i * 4) 4 2 (by omega)] at h2
              rw [List.getD_eq_getElem?_getD, h2]
              rfl
            constructor
            · rw [← h]
              simp [hlen]
            · intro j hj
              cases j with
              | zero =>
                rw [← h, List.getD_cons_zero]
                simp only [Nat.add_zero]
                rw [hb0, hb1, hb2]
              | succ jj =>
                rw [← h, List.getD_cons_succ]
                have harg : i + 1 + jj = i + (jj + 1) := by omega
                rw [← harg]
                exact hcomp jj (by omega)

/-- Claim C6 (confirmed). Byte-packed frame de-quantization is linear:
whenever the shared de-quantization loop of the IDPO and MDL3/4/5 frame
readers succeeds, it yields one position per declared vertex and the
component on each axis equals the packed byte times the scale plus the
translate of that axis. -/
theorem c6_dequantization (s1 s2 s3 t1 t2 t3 : ℚ) (vd : Bytes) (n : Nat)
    (vs : List Vec3q)
    (h : decodeFrameVerts (s1, s2, s3) (t1, t2, t3) vd n = .ok vs) :
    vs.length = n ∧ ∀ j, j < n → vs.getD j (0, 0, 0) =
      ((vd.getD (j * 4) 0 : ℚ) * s1 + t1,
       (vd.getD (j * 4 + 1) 0 : ℚ) * s2 + t2,
       (vd.getD (j * 4 + 2) 0 : ℚ) * s3 + t3) := by
  have hs := decodeFrameVertsAux_spec s1 s2 s3 t1 t2 t3 vd n 0 vs h
  refine ⟨hs.1, fun j hj => ?_⟩
  have hc := hs.2 j hj
  simpa using hc

/-- Witness for c6_dequantization: scale (2,2,2), translate (0,0,0) and
the packed vertex bytes (10,20,30,0) decode to exactly (20,40,60). -/
theorem c6_dequantization_witness :
    ([((20 : ℚ), 40, 60)] : List Vec3q).getD 0 (0, 0, 0) =
      ((([10, 20, 30, 0] : Bytes).getD 0 0 : ℚ) * 2 + 0,
       (([10, 20, 30, 0] : Bytes).getD 1 0 : ℚ) * 2 + 0,
       (([10, 20, 30, 0] : Bytes).getD 2 0 : ℚ) * 2 + 0) := by
  have hraw : decodeFrameVerts ((2 : ℚ), 2, 2) (0, 0, 0) [10, 20, 30, 0] 1 =
      .ok [(((10 : ℕ) : ℚ) * 2 + 0, ((20 : ℕ) : ℚ) * 2 + 0,
        ((30 : ℕ) : ℚ) * 2 + 0)] := rfl
  have hEq : decodeFrameVerts ((2 : ℚ), 2, 2) (0, 0, 0) [10, 20, 30, 0] 1 =
      .ok [(20, 40, 60)] := by
    rw [hraw]
    norm_num
  exact (c6_dequantization 2 2 2 0 0 0 [10, 20, 30, 0] 1
    [(20, 40, 60)] hEq).2 0 (by omega)

theorem leNat_lt_pow (bs : Bytes) (h : ∀ b ∈ bs, b < 256) :
    leNat bs < 256 ^ bs.length := by
  induction bs with
  | nil => simp [leNat]
  | cons b rest ih =>
    have hb : b < 256 := h b (by simp)
    have hr : leNat rest < 256 ^ rest.length :=
      ih (fun x hx => h x (by simp [hx]))
    have hstep : leNat (b :: rest) = b + 256 * leNat rest := rfl
    rw [hstep]
    calc b + 256 * leNat rest < 256 * (leNat rest + 1) := by omega
      _ ≤ 256 * 256 ^ rest.length := Nat.mul_le_mul_left _ hr
      _ = 256 ^ (b :: rest).length := by
        rw [List.length_cons, pow_succ]
        ring

theorem mem_sliceAt {data : Bytes} {off n b : Nat}
    (h : b ∈ sliceAt data off n) : b ∈ data :=
  List.mem_of_mem_drop (List.mem_of_mem_take h)

theorem u16at_lt (bs : Bytes) (k : Nat) (h : ∀ b ∈ bs, b < 256) :
    u16at bs k < 65536 := by
  have hlen : (sliceAt bs k 2).length ≤ 2 := by
    simp [sliceAt]
  have hv := leNat_lt_pow (sliceAt bs k 2)
    (fun b hb => h b (mem_sliceAt hb))
  calc u16at bs k < 256 ^ (sliceAt bs k 2).length := hv
    _ ≤ 256 ^ 2 := Nat.pow_le_pow_right (by omega) hlen
    _ = 65536 := by norm_num

theorem readBytesI_mem {data : Bytes} {off : Int} {n : Nat} {bs : Bytes}
    (h : readBytesI data off n = some bs) : ∀ b ∈ bs, b ∈ data := by
  unfold readBytesI at h
  split at h
  · simp only [] at h
    split at h
    · cases h
      exact fun b hb => mem_sliceAt hb
    · cases h
  · simp only [] at h
    split at h
    · cases h
      exact fun b hb => mem_sliceAt hb
    · cases h

theorem c7_rebasing (data : Bytes) (hdata : ∀ b ∈ data, b < 256)
    (stc : Nat) (vOff uvOff : Int) :
    ∀ (n : Nat) (off : Int) (tris : List Tri7) (off2 : Int),
      load_group_tris data stc vOff uvOff n off = .ok (tris, off2) →
      ∀ t ∈ tris,
        (vOff ≤ t.v0 ∧ t.v0 < vOff + 65536) ∧
        (vOff ≤ t.v1 ∧ t.v1 < vOff + 65536) ∧
        (vOff ≤ t.v2 ∧ t.v2 < vOff + 65536) ∧
        (uvOff ≤ t.uv0 ∧ t.uv0 < uvOff + 65536) ∧
        (uvOff ≤ t.uv1 ∧ t.uv1 < uvOff + 65536) ∧
        (uvOff ≤ t.uv2 ∧ t.uv2 < uvOff + 65536) := by
  intro n
  induction n with
  | zero =>
    intro off tris off2 h
    simp only [load_group_tris] at h
    cases h
    intro t ht
    cases ht
  | succ m ih =>
    intro off tris off2 h
    simp only [load_group_tris] at h
    cases h1 : readBytesI data off 6 with
    | none =>
      rw [h1] at h
      cases h
    | some b1 =>
      rw [h1] at h
      cases h2 : readBytesI data (off + 6) 6 with
      | none =>
        rw [h2] at h
        cases h
      | some b2 =>
        rw [h2] at h
        cases hr : load_group_tris data stc vOff uvOff m (off + stc) with
        | error e =>
          rw [hr] at h
          simp [Bind.bind, Except.bind] at h
        | ok p =>
          rw [hr] at h
          simp only [Bind.bind, Except.bind, Except.ok.injEq,
            Prod.mk.injEq] at h
          obtain ⟨htris, -⟩ := h
          intro t ht
          rw [← htris] at ht
          cases ht with
          | head =>
            have hm1 : ∀ b ∈ b1, b < 256 :=
              fun b hb => hdata b (readBytesI_mem h1 b hb)
            have hm2 : ∀ b ∈ b2, b < 256 :=
              fun b hb => hdata b (readBytesI_mem h2 b hb)
            have u0 := u16at_lt b1 0 hm1
            have u1 := u16at_lt b1 2 hm1
            have u2 := u16at_lt b1 4 hm1
            have w0 := u16at_lt b2 0 hm2
            have w1 := u16at_lt b2 2 hm2
            have w2 := u16at_lt b2 4 hm2
            refine ⟨⟨?_, ?_⟩, ⟨?_, ?_⟩, ⟨?_, ?_⟩, ⟨?_, ?_⟩, ⟨?_, ?_⟩,
              ⟨?_, ?_⟩⟩ <;> simp only [] <;> omega
          | tail _ htl =>
            exact ih (off + stc) p.1 p.2 (by rw [hr]) t htl

/-- Claim C7 (corrected). The claim says the second group's rebased global
vertex indices lie in [5, 12) and never in [0, 7). Rebasing adds the prior
groups' vertex total, so local index 0 of the second group becomes global
index 5 — which does lie in [0, 7): on this two-group file (5 then 7
vertices) the second group's triangle (0,1,2) decodes to global (5,6,7),
and 5 is in [0, 7). -/
theorem c7_counterexample :
    (load_mdl7 c7buf).toOption.map (fun m => (m.triangles, m.num_verts)) =
      some ([{ v0 := 5, v1 := 6, v2 := 7, uv0 := 0, uv1 := 1, uv2 := 2 }],
        12) ∧
    (0 : Int) ≤ 5 ∧ (5 : Int) < 7 :=
  ⟨by decide, by decide, by decide⟩

/-- Witness for c7_rebasing: one triangle with local indices (0,1,2) read
at vertex offset 5 and skin-point offset 0 lands on global indices bounded
below by the offsets. -/
theorem c7_rebasing_witness :
    (((5 : Int) ≤ 5 ∧ (5 : Int) < 5 + 65536) ∧
     ((5 : Int) ≤ 6 ∧ (6 : Int) < 5 + 65536) ∧
     ((5 : Int) ≤ 7 ∧ (7 : Int) < 5 + 65536) ∧
     ((0 : Int) ≤ 0 ∧ (0 : Int) < 0 + 65536) ∧
     ((0 : Int) ≤ 1 ∧ (1 : Int) < 0 + 65536) ∧
     ((0 : Int) ≤ 2 ∧ (2 : Int) < 0 + 65536)) :=
  c7_rebasing [0, 0, 1, 0, 2, 0, 0, 0, 1, 0, 2, 0] (by decide) 12 5 0 1 0
    [{ v0 := 5, v1 := 6, v2 := 7, uv0 := 0, uv1 := 1, uv2 := 2 }] 12
    (by decide) { v0 := 5, v1 := 6, v2 := 7, uv0 := 0, uv1 := 1, uv2 := 2 }
    (by simp)

/-- Claim C8 (confirmed). Every lump reader is a no-op on a zero-length
directory entry: whatever the buffer contents and the entry's offset, the
reader returns its empty collection (and the faces reader also leaves the
surfedges unloaded) without reading any byte of the lump region — the
result is independent of the buffer. -/
theorem c8_zero_length_lumps (ver : WmbVer) (data : Bytes) (off : Nat)
    (skinsLump : Lump) (edges : List (Nat × Nat)) :
    load_textures ver data { off := off, len := 0 } = .ok [] ∧
    load_wmb6_texinfo data { off := off, len := 0 } = .ok [] ∧
    load_wmb6_vertices data { off := off, len := 0 } = .ok [] ∧
    load_wmb6_edges data { off := off, len := 0 } = .ok [] ∧
    load_wmb6_surfedges data { off := off, len := 0 } = .ok [] ∧
    load_wmb6_faces data { off := off, len := 0 } skinsLump edges =
      .ok ([], []) ∧
    load_objects data { off := off, len := 0 } = .ok ([], none) ∧
    load_materials data { off := off, len := 0 } = .ok [] ∧
    load_lightmaps data { off := off, len := 0 } = .ok [] ∧
    load_blocks data { off := off, len := 0 } = .ok [] :=
  ⟨rfl, rfl, rfl, rfl, rfl, rfl, rfl, rfl, rfl, by
    simp [load_blocks]⟩

/-- The offset-table reader yields one entry per count. -/
theorem readU32List_length (data : Bytes) :
    ∀ (n off : Nat) (l : List Nat),
      readU32List data off n = .ok l → l.length = n := by
  intro n
  induction n with
  | zero =>
    intro off l h
    simp only [readU32List] at h
    cases h
    rfl
  | succ m ih =>
    intro off l h
    simp only [readU32List] at h
    cases hv : expectU32 data off with
    | error e =>
      rw [hv] at h
      cases h
    | ok v =>
      rw [hv] at h
      cases hr : readU32List data (off + 4) m with
      | error e =>
        rw [hr] at h
        simp [Bind.bind, Except.bind] at h
      | ok rest =>
        rw [hr] at h
        simp only [Bind.bind, Except.bind, Except.ok.injEq] at h
        rw [← h]
        simp [ih _ _ hr]

/-- The object loop appends exactly one record per table entry. -/
theorem load_objects_go_length (data : Bytes) (base : Nat) :
    ∀ (offs : List Nat) (i : Nat) (inf : Option PObj)
      (res : List PObj × Option PObj),
      load_objects_go data base offs i inf = .ok res →
      res.1.length = offs.length := by
  intro offs
  induction offs with
  | nil =>
    intro i inf res h
    simp only [load_objects_go] at h
    cases h
    rfl
  | cons o rest ih =>
    intro i inf res h
    simp only [load_objects_go] at h
    cases ho : load_object_at data i (base + o) with
    | error e =>
      rw [ho] at h
      cases h
    | ok obj =>
      rw [ho] at h
      simp only [Bind.bind, Except.bind] at h
      cases hg : load_objects_go data base rest (i + 1)
          (if obj.type_code = 5 then some obj else inf) with
      | error e =>
        rw [hg] at h
        cases h
      | ok res' =>
        rw [hg] at h
        simp only [Except.ok.injEq] at h
        rw [← h]
        simp [ih _ _ _ hg]

/-- Claim C9 (confirmed). The objects lump decodes to exactly its declared
count of records regardless of their type codes, and a record whose u32
type code is none of the five known codes (5 Info, 1 Position, 2 Light,
3 OldEntity, 7 Entity) is preserved as an opaque record carrying that
code, not dropped. -/
theorem c9_objects_preserved (data : Bytes) (lump : Lump) (cnt : Nat)
    (objs : List PObj) (inf : Option PObj) (i absOff t : Nat) :
    (lump.len ≠ 0 → readU32 data lump.off = some cnt →
      load_objects data lump = .ok (objs, inf) → objs.length = cnt) ∧
    (readU32 data absOff = some t → t ≠ 5 → t ≠ 1 → t ≠ 2 → t ≠ 3 →
      t ≠ 7 → load_object_at data i absOff =
        .ok { index := i, type_code := t, payload := .unknown }) := by
  constructor
  · intro h0 hc h
    simp only [load_objects, if_neg h0, expectU32, hc, Bind.bind,
      Except.bind] at h
    cases ho : readU32List data (lump.off + 4) cnt with
    | error e =>
      rw [ho] at h
      cases h
    | ok offs =>
      rw [ho] at h
      dsimp only at h
      cases hg : load_objects_go data lump.off offs 0 none with
      | error e =>
        rw [hg] at h
        cases h
      | ok res =>
        rw [hg] at h
        cases h
        rw [load_objects_go_length data lump.off offs 0 none _ hg]
        exact readU32List_length data cnt (lump.off + 4) offs ho
  · intro ht h5 h1 h2 h3 h7
    simp [load_object_at, expectU32, ht, h5, h1, h2, h3, h7, Bind.bind,
      Except.bind]

/-- Witness for c9_objects_preserved on a one-object lump whose single
record has the unrecognized type code 42. -/
theorem c9_objects_preserved_witness :
    ([{ index := 0, type_code := 42, payload := .unknown }] :
      List PObj).length = 1 ∧
    load_object_at c9data 0 8 =
      .ok { index := 0, type_code := 42, payload := .unknown } :=
  ⟨(c9_objects_preserved c9data { off := 0, len := 12 } 1
      [{ index := 0, type_code := 42, payload := .unknown }] none 0 8
      42).1 (by decide) (by decide) (by decide),
   (c9_objects_preserved c9data { off := 0, len := 12 } 1
      [{ index := 0, type_code := 42, payload := .unknown }] none 0 8
      42).2 (by decide) (by decide) (by decide) (by decide) (by decide)
      (by decide)⟩

/-- Applying one override never changes the list length. -/
theorem applyOverride_length (vs : List Vec3q) (idx : Nat) (v : Vec3q) :
    (applyOverride vs idx v).length = vs.length := by
  unfold applyOverride
  split
  · exact List.length_set vs idx v
  · rfl

/-- The frame-override loop preserves the vertex-list length, whatever the
records contain. -/
theorem read_frame_overrides_length (data : Bytes) (stc : Nat) :
    ∀ (n : Nat) (off : Int) (vs vs2 : List Vec3q) (off2 : Int),
      read_frame_overrides data stc n off vs = .ok (vs2, off2) →
      vs2.length = vs.length := by
  intro n
  induction n with
  | zero =>
    intro off vs vs2 off2 h
    simp only [read_frame_overrides] at h
    cases h
    rfl
  | succ m ih =>
    intro off vs vs2 off2 h
    simp only [read_frame_overrides] at h
    cases h1 : readBytesI data off 12 with
    | none =>
      rw [h1] at h
      cases h
    | some b1 =>
      rw [h1] at h
      cases h2 : readBytesI data (off + 12) 2 with
      | none =>
        rw [h2] at h
        cases h
      | some b2 =>
        rw [h2] at h
        have := ih (off + stc)
          (applyOverride vs (u16at b2 0) (f32at b1 0, f32at b1 4, f32at b1 8))
          vs2 off2 h
        rw [this, applyOverride_length]

/-- The main-vertex loop yields one position per declared vertex. -/
theorem load_group_verts_length (data : Bytes) (stc : Nat) :
    ∀ (n : Nat) (off : Int) (gv : List Vec3q) (off2 : Int),
      load_group_verts data stc n off = .ok (gv, off2) →
      gv.length = n := by
  intro n
  induction n with
  | zero =>
    intro off gv off2 h
    simp only [load_group_verts] at h
    cases h
    rfl
  | succ m ih =>
    intro off gv off2 h
    simp only [load_group_verts] at h
    cases h1 : readBytesI data off 12 with
    | none =>
      rw [h1] at h
      cases h
    | some b =>
      rw [h1] at h
      cases hr : load_group_verts data stc m (off + stc) with
      | error e =>
        rw [hr] at h
        simp [Bind.bind, Except.bind] at h
      | ok p =>
        rw [hr] at h
        simp only [Bind.bind, Except.bind, Except.ok.injEq,
          Prod.mk.injEq] at h
        rw [← h.1]
        simp [ih _ _ _ (by rw [hr])]

/-- Claim C10 (confirmed). A frame-vertex override whose vertindex is at
or past the vertex count leaves the whole list untouched; the override
loop preserves the list's length whatever its records contain; and the
group's base vertex list has exactly the declared vertex count — so every
per-group frame vertex list has exactly the group's declared length. -/
theorem c10_override_safety (vs : List Vec3q) (idx : Nat) (v : Vec3q)
    (data : Bytes) (stc n1 n2 : Nat) (off1 off2 off3 off4 : Int)
    (vs2 gv : List Vec3q) :
    (vs.length ≤ idx → applyOverride vs idx v = vs) ∧
    (read_frame_overrides data stc n1 off1 vs = .ok (vs2, off3) →
      vs2.length = vs.length) ∧
    (load_group_verts data stc n2 off2 = .ok (gv, off4) →
      gv.length = n2) := by
  refine ⟨?_, ?_, ?_⟩
  · intro h
    unfold applyOverride
    rw [if_neg (by omega)]
  · exact read_frame_overrides_length data stc n1 off1 vs vs2 off3
  · exact load_group_verts_length data stc n2 off2 gv off4

/-- Witness for c10_override_safety: an override targeting index 5 of a
one-vertex list is ignored, the override loop keeps length 1, and one
main-vertex record yields a list of length 1. -/
theorem c10_override_safety_witness :
    (applyOverride [((0 : ℚ), (0 : ℚ), (0 : ℚ))] 5 (1, 1, 1) =
      [((0 : ℚ), (0 : ℚ), (0 : ℚ))]) ∧
    (([((0 : ℚ), (0 : ℚ), (0 : ℚ))] : List Vec3q).length =
      ([((0 : ℚ), (0 : ℚ), (0 : ℚ))] : List Vec3q).length) ∧
    (([(decodeF32bits 0, decodeF32bits 0, decodeF32bits 0)] :
      List Vec3q).length = 1) :=
  ⟨(c10_override_safety [((0 : ℚ), (0 : ℚ), (0 : ℚ))] 5 (1, 1, 1)
      [0, 0, 0, 0, 0, 0, 0, 0, 0, 0, 0, 0, 5, 0] 14 1 1 0 0 14 12
      [((0 : ℚ), (0 : ℚ), (0 : ℚ))]
      [(decodeF32bits 0, decodeF32bits 0, decodeF32bits 0)]).1
      (by simp),
   (c10_override_safety [((0 : ℚ), (0 : ℚ), (0 : ℚ))] 5 (1, 1, 1)
      [0, 0, 0, 0, 0, 0, 0, 0, 0, 0, 0, 0, 5, 0] 14 1 1 0 0 14 12
      [((0 : ℚ), (0 : ℚ), (0 : ℚ))]
      [(decodeF32bits 0, decodeF32bits 0, decodeF32bits 0)]).2.1 rfl,
   (c10_override_safety [((0 : ℚ), (0 : ℚ), (0 : ℚ))] 5 (1, 1, 1)
      (List.replicate 12 0) 12 1 1 0 0 14 12
      [((0 : ℚ), (0 : ℚ), (0 : ℚ))]
      [(decodeF32bits 0, decodeF32bits 0, decodeF32bits 0)]).2.2 rfl⟩
